import Mathlib

/-!
Shallow embedding of the campaign-bot conversation orchestration core
(`src/app/modules/ai_module` and `src/app/modules/campaign_module`).

Conventions of the embedding:
* The LangGraph `ConversationState` TypedDict becomes the structure
  `ConvState`; a key that Python code may find absent (read through
  `dict.get`) is an `Option`, and Python truthiness of strings and lists
  is made explicit by `optStrTruthy` / `optListTruthy`.
* A node's calls to the LLM oracle and to the campaign backend are
  external effects; each node takes the outcome of those calls as an
  explicit argument (an `Except` value: `.error` models the call raising,
  `.ok none` models output that `json.loads` and the brace-slice retry
  both fail to parse, `.ok (some r)` models parsed JSON `r`).  A node
  that must not reach the backend also returns a `Bool` recording
  whether the backend call was performed.
* Python `datetime` values are modelled by `PyDateTime`: an integer
  wall-clock timestamp plus an optional UTC offset (`none` = naive).
-/

/-- Python `str.strip()` as used throughout the nodes: whitespace
dropped from both ends, modelled on the character list so that it
evaluates by reduction. -/
def pyStrip (s : String) : String :=
  String.mk (((s.data.dropWhile Char.isWhitespace).reverse.dropWhile Char.isWhitespace).reverse)

/-- Python truthiness of an optional string (`None`, `""` are falsy). -/
def optStrTruthy : Option String → Bool
  | none => false
  | some s => !s.isEmpty

/-- Python truthiness of an optional list (`None`, `[]` are falsy). -/
def optListTruthy : Option (List String) → Bool
  | none => false
  | some xs => !xs.isEmpty

/-- Python `a or b` on two optional strings: `a` when truthy, else `b`. -/
def pyOr (a b : Option String) : Option String :=
  if optStrTruthy a then a else b

/-- The LangGraph `ConversationState` TypedDict (conversation_state.py).
The transcript list `messages` carries no control flow and is omitted;
every other key is present.  There is no session-id key: session identity
is the LangGraph `thread_id`, held outside the record. -/
structure ConvState where
  user_message : String
  current_step : Option String
  processing_status : Option String
  campaign_name : Option String
  event_name : Option String
  event_date : Option String
  admins : Option (List String)
  context : Option String
  timezone : Option String
  campaign_id : Option String
  event_id : Option String
  pending_event_id : Option String
  whatsapp_group_url : Option String
  came_from_status_check : Option Bool
  bot_response : Option String
deriving DecidableEq, Repr

/-! ### The router's mechanical phone-number fallback

`router_node` line 255 runs `re.findall(r"\+?\d{7,15}", user_message)`.
The regex scan is modelled faithfully: at each position try an optional
`+` followed by greedily up to 15 digits, accept when at least 7 digits
matched, continue after the match (non-overlapping), otherwise advance
one character.  The recursion is fuelled by the input length; every step
consumes at least one character, so the fuel never runs out. -/

/-- Take up to `n` leading decimal digits: `(digits, rest)`. -/
def takeDigitsUpTo : Nat → List Char → List Char × List Char
  | _, [] => ([], [])
  | 0, cs => ([], cs)
  | n + 1, c :: rest =>
      if c.isDigit then
        let p := takeDigitsUpTo n rest
        (c :: p.1, p.2)
      else ([], c :: rest)

/-- Fuelled scan for `re.findall(r"\+?\d{7,15}", s)`. -/
def findPhonesGo : Nat → List Char → List String
  | 0, _ => []
  | _, [] => []
  | fuel + 1, c :: rest =>
      if c == '+' then
        let p := takeDigitsUpTo 15 rest
        if 7 ≤ p.1.length then String.mk (c :: p.1) :: findPhonesGo fuel p.2
        else findPhonesGo fuel rest
      else if c.isDigit then
        let p := takeDigitsUpTo 15 (c :: rest)
        if 7 ≤ p.1.length then String.mk p.1 :: findPhonesGo fuel p.2
        else findPhonesGo fuel rest
      else findPhonesGo fuel rest

/-- All matches of `\+?\d{7,15}` in the message, in order. -/
def findPhones (cs : List Char) : List String := findPhonesGo cs.length cs

/-- Number of leading decimal-digit characters. -/
def leadingDigits : List Char → Nat
  | [] => 0
  | c :: rest => if c.isDigit then leadingDigits rest + 1 else 0

/-- Does the character list contain a run of at least 7 consecutive
decimal digits (equivalently: a match of `\d{7,15}`)? -/
def hasRun7 : List Char → Bool
  | [] => false
  | c :: rest => (7 ≤ leadingDigits (c :: rest)) || hasRun7 rest

/-! ### Router node (router_node.py) -/

/-- The `parsed` object of the router oracle's JSON reply.  `admins` may
come back as a JSON list or as a bare string (the code branches on
`isinstance(admins_parsed, list)`). -/
inductive AdminsVal where
  | list (xs : List String)
  | str (s : String)
deriving DecidableEq, Repr

/-- Python truthiness of the raw `parsed.get("admins")` value. -/
def adminsTruthy : Option AdminsVal → Bool
  | none => false
  | some (.list xs) => !xs.isEmpty
  | some (.str s) => !s.isEmpty

/-- The `parsed` field of the router oracle reply (router_node.py lines
128-137); absent or null members are `none`. -/
structure RouterParsed where
  campaign_name : Option String
  event_name : Option String
  event_date : Option String
  timezone : Option String
  admins : Option AdminsVal
  context : Option String
  event_id : Option String
  user_confirms : Option Bool
deriving DecidableEq, Repr

/-- `parsed` defaulted to `{}` (router_node.py line 222). -/
def emptyRouterParsed : RouterParsed :=
  ⟨none, none, none, none, none, none, none, none⟩

/-- The router oracle's JSON reply. -/
structure RouterLLM where
  next_step : Option String
  bot_response : Option String
  processing_status : Option String
  is_campaign_related : Option Bool
  parsed : Option RouterParsed
deriving DecidableEq, Repr

/-- The fixed dictionary substituted when `json.loads` fails on the
router oracle output (router_node.py lines 188-197). -/
def routerUnparseableLLM : RouterLLM where
  next_step := some "out_of_context"
  bot_response := some ("Disculpa, no entendí completamente tu mensaje. " ++
    "Soy un asistente para crear campañas y eventos; si quieres, podemos empezar una campaña.")
  processing_status := some "out_of_context"
  is_campaign_related := some false
  parsed := none

/-- Default out-of-context reply (router_node.py lines 205-209). -/
def routerOutOfContextDefault : String :=
  "Disculpa, soy un asistente especializado en la creación de campañas con eventos y grupos de WhatsApp. " ++
  "¿Te gustaría crear una campaña? Puedo ayudarte con eso."

/-- One collected-field update of router_node.py lines 224-244 and
261-265: prefer the truthy parsed value (stripped), fall back to the raw
message when the conversation is at that field's step, else leave the
field alone. -/
def applyStrField (parsedVal : Option String) (stepMatches : Bool)
    (user_message : String) (cur : Option String) : Option String :=
  if optStrTruthy parsedVal then some (pyStrip (parsedVal.getD ""))
  else if stepMatches && !(pyStrip user_message).isEmpty then some (pyStrip user_message)
  else cur

/-- The admins update of router_node.py lines 246-259, including the
mechanical phone-number fallback. -/
def applyAdmins (parsedAdmins : Option AdminsVal) (stepMatches : Bool)
    (user_message : String) (cur : Option (List String)) : Option (List String) :=
  if adminsTruthy parsedAdmins then
    match parsedAdmins with
    | some (.list xs) => some (xs.map pyStrip)
    | some (.str s) => some [pyStrip s]
    | none => cur
  else if stepMatches && !(pyStrip user_message).isEmpty then
    let nums := findPhones user_message.data
    if !nums.isEmpty then some nums else some [pyStrip user_message]
  else cur

/-- Field application block of router_node.py lines 224-265, in source
order: campaign_name, event_name, event_date, timezone, admins, context. -/
def router_apply_parsed (parsed : RouterParsed) (current_step user_message : String)
    (s : ConvState) : ConvState :=
  let s1 := { s with campaign_name := applyStrField parsed.campaign_name (current_step == "campaign_name") user_message s.campaign_name }
  let s2 := { s1 with event_name := applyStrField parsed.event_name (current_step == "event_name") user_message s1.event_name }
  let s3 := { s2 with event_date := applyStrField parsed.event_date (current_step == "event_date") user_message s2.event_date }
  let s4 := { s3 with timezone := applyStrField parsed.timezone (current_step == "timezone") user_message s3.timezone }
  let s5 := { s4 with admins := applyAdmins parsed.admins (current_step == "admins") user_message s4.admins }
  { s5 with context := applyStrField parsed.context (current_step == "context") user_message s5.context }

/-- The `all(required_data)` check of router_node.py lines 272-280:
Python truthiness of the six collected fields. -/
def requiredDataComplete (s : ConvState) : Bool :=
  optStrTruthy s.campaign_name && optStrTruthy s.event_name &&
  optStrTruthy s.event_date && optStrTruthy s.timezone &&
  optListTruthy s.admins && optStrTruthy s.context

/-- Confirmation handling of router_node.py lines 267-288. -/
def router_apply_confirm (user_confirms : Option Bool) (s : ConvState) : ConvState :=
  match user_confirms with
  | none => s
  | some true =>
      if requiredDataComplete s then
        { s with processing_status := some "creating_campaign" }
      else
        { s with bot_response := some "Faltan algunos datos. Te ayudo a completarlos.",
                 processing_status := some "idle" }
  | some false => { s with processing_status := some "idle" }

/-- Event-id shortcut of router_node.py lines 290-292. -/
def router_apply_event_id (parsedEventId : Option String) (s : ConvState) : ConvState :=
  if optStrTruthy parsedEventId then { s with event_id := some (pyStrip (parsedEventId.getD "")) }
  else s

/-- `router_node` (router_node.py lines 147-301).  The oracle argument is
the outcome of the `client.responses.create` call plus JSON parsing:
`.error` = the call raised, `.ok none` = unparseable output, `.ok (some r)`
= parsed reply `r`. -/
def router_node (oracle : Except String (Option RouterLLM)) (state : ConvState) : ConvState :=
  let current_step := state.current_step.getD "greeting"
  let user_message := state.user_message
  match oracle with
  | .error _ =>
      { state with bot_response := some "Ocurrió un error. ¿Puedes repetir tu mensaje?" }
  | .ok content =>
      let llm_res := content.getD routerUnparseableLLM
      if !(llm_res.is_campaign_related.getD true) then
        { state with current_step := some "out_of_context",
                     bot_response := some (llm_res.bot_response.getD routerOutOfContextDefault),
                     processing_status := some "out_of_context" }
      else
        let s := { state with
          current_step := some (llm_res.next_step.getD current_step),
          bot_response := some (llm_res.bot_response.getD "¿Cómo puedo ayudarte?") }
        let lps := llm_res.processing_status.getD "idle"
        let s := if lps == "checking_status" || lps == "out_of_context" then
                   { s with processing_status := some lps }
                 else s
        let parsed := llm_res.parsed.getD emptyRouterParsed
        let s := router_apply_parsed parsed current_step user_message s
        let s := router_apply_confirm parsed.user_confirms s
        router_apply_event_id parsed.event_id s

/-! ### Decision functions (graph/decisions.py) and graph edges (graph/builder.py) -/

/-- Where a conditional edge leads: a named node, or the terminal END. -/
inductive GraphTarget where
  | node (nm : String)
  | terminalEnd
deriving DecidableEq, Repr

/-- `router_decision` (decisions.py lines 12-66). -/
def router_decision (s : ConvState) : String :=
  let current_step := s.current_step.getD "greeting"
  let processing_status := s.processing_status.getD "idle"
  if current_step == "out_of_context" || processing_status == "out_of_context" then "__end__"
  else if current_step == "check_status" then "check_status"
  else if processing_status == "creating_campaign" then "create_campaign"
  else if current_step == "create_campaign" && processing_status == "idle" then "create_campaign"
  else if current_step == "pending_group" then "pending_group"
  else if current_step == "completed" then "completed"
  else if current_step == "error" then "error"
  else "__end__"

/-- `event_creator_decision` (decisions.py lines 69-86). -/
def event_creator_decision (s : ConvState) : String :=
  let current_step := s.current_step.getD "error"
  let processing_status := s.processing_status.getD "error"
  if current_step == "create_whatsapp_group" && processing_status == "creating_group" then
    "create_whatsapp_group"
  else if current_step == "error" || processing_status == "error" then "error"
  else "error"

/-- `whatsapp_decision` (decisions.py lines 89-101). -/
def whatsapp_decision (s : ConvState) : String :=
  let processing_status := s.processing_status.getD "idle"
  if processing_status == "completed" || processing_status == "creating" then "completed"
  else "error"

/-- `status_decision` (decisions.py lines 104-114). -/
def status_decision (s : ConvState) : String :=
  let processing_status := s.processing_status.getD "idle"
  if processing_status == "completed" then "completed"
  else if processing_status == "error" then "error"
  else "wait"

/-- The conditional-edge map on `event_creator` (builder.py lines 81-88). -/
def event_creator_edges (d : String) : GraphTarget :=
  if d == "create_whatsapp_group" then .node "whatsapp_group_creator" else .terminalEnd

/-! ### Campaign service (campaign_service.py) -/

/-- A Python `datetime`: a wall-clock timestamp (an abstract integer
instant, e.g. seconds) plus an optional fixed UTC offset; `tzOffset =
none` models a naive datetime. -/
structure PyDateTime where
  wall : Int
  tzOffset : Option Int
deriving DecidableEq, Repr

/-- The tz normalization of campaign_service.py lines 76-79: a naive
datetime gets `tzinfo=timezone.utc` attached (its wall clock read as
UTC), an aware one is converted with `astimezone(timezone.utc)`. -/
def pyNormalizeUTC (d : PyDateTime) : Int :=
  match d.tzOffset with
  | none => d.wall
  | some off => d.wall - off

/-- `InvalidEventDate` (exceptions.py lines 7-12): `bot_message`
defaults to `message` when not given. -/
structure InvalidEventDateE where
  message : String
  bot_message : String
deriving DecidableEq, Repr

/-- `EventInput` (models.py lines 37-51) as filled by
`create_event_for_campaign`; `event_date` is the normalized UTC instant. -/
structure EventInput where
  name : String
  campaign_id : String
  event_date : Int
  administrators : List String
  context : Option String
  timezone : String
  image_url : String
deriving DecidableEq, Repr

/-- The constant 1x1-pixel image URL passed at campaign_service.py line 99. -/
def defaultEventImage : String :=
  "data:image/png;base64,iVBORw0KGgoAAAANSUhEUgAAAAEAAAABCAYAAAAfFcSJAAAADUlEQVR42mNkYPhfDwAChwGA60e6kgAAAABJRU5ErkJggg=="

/-- An `event_date` argument: a raw string (as the bot passes it) or an
already-built datetime. -/
inductive DateArg where
  | str (s : String)
  | dt (d : PyDateTime)
deriving DecidableEq, Repr

/-- The `InvalidEventDate` raised for a past-or-present date
(campaign_service.py lines 86-89). -/
def pastEventDateError : InvalidEventDateE :=
  ⟨"Event date must be in the future",
   "⏰ La fecha del evento debe ser futura. Por favor, elige una fecha y hora que aún no haya pasado."⟩

/-- The date validation tail of `create_event_for_campaign`
(campaign_service.py lines 76-102), applied once a datetime is in hand:
normalize to UTC, reject an instant at or before `now`, otherwise build
the `EventInput` handed to `api_client.create_event`. -/
def createEventValidated (now : Int) (campaign_id name : String) (d : PyDateTime)
    (administrators : List String) (context : Option String) (tz_name : String) :
    Except InvalidEventDateE EventInput :=
  let utc := pyNormalizeUTC d
  if utc ≤ now then .error pastEventDateError
  else .ok ⟨name, campaign_id, utc, administrators, context, tz_name, defaultEventImage⟩

/-- `LukiaService.create_event_for_campaign` (campaign_service.py lines
42-102).  `parse` models `datetime.fromisoformat` followed by the fixed
`strptime` fallback formats (an external library call): `none` = every
format failed.  A returned `.ok input` is the `EventInput` with which
`api_client.create_event` is then called; every `.error` is raised
before that backend call. -/
def create_event_for_campaign (parse : String → Option PyDateTime) (now : Int)
    (campaign_id name : String) (event_date : DateArg) (administrators : List String)
    (context : Option String) (tz_name : String) : Except InvalidEventDateE EventInput :=
  match event_date with
  | .str s =>
      match parse s with
      | none =>
          .error ⟨"Invalid event_date format: " ++ s, "Invalid event_date format: " ++ s⟩
      | some d => createEventValidated now campaign_id name d administrators context tz_name
  | .dt d => createEventValidated now campaign_id name d administrators context tz_name

/-- `Event` (models.py lines 54-76), reduced to the one field the nodes
read (`result.id`, optional in the model). -/
structure EventObj where
  id : Option String
deriving DecidableEq, Repr

/-- A failure of the full `create_event_for_campaign` call as seen by
the event-creator node: the `InvalidEventDate` raised by validation, or
any exception out of the backend call. -/
inductive SvcErr where
  | invalidDate (e : InvalidEventDateE)
  | backend (msg : String)
deriving DecidableEq, Repr

/-- The full service call: validation, then — only on validated input —
the backend `create_event` (whose outcome is the external `backend`
argument). -/
def service_create_event (backend : EventInput → Except String EventObj)
    (r : Except InvalidEventDateE EventInput) : Except SvcErr EventObj :=
  match r with
  | .error e => .error (.invalidDate e)
  | .ok inp =>
      match backend inp with
      | .error m => .error (.backend m)
      | .ok ev => .ok ev

/-! ### Event creator node (event_creator_node.py) -/

/-- The event-creator oracle's JSON reply (event_creator_node.py lines 38-45). -/
structure EventCreatorLLM where
  should_create : Option Bool
  bot_response : Option String
  next_step : Option String
  processing_status : Option String
  timezone : Option String
deriving DecidableEq, Repr

/-- Fallback dictionary when the event-creator oracle output is
unparseable (event_creator_node.py line 84). -/
def eventCreatorUnparseableLLM : EventCreatorLLM :=
  ⟨some false, some "No entendí la validación. Puedes repetir?", some "error", some "error", none⟩

/-- Python `f"{v}"` of an optional string (`None` prints as "None"). -/
def pyShowOpt : Option String → String
  | none => "None"
  | some s => s

/-- `event_creator_node` (event_creator_node.py lines 49-145).  `oracle`
is the validation-oracle call outcome; `svc` is the outcome of the
`lukia_service.create_event_for_campaign` call (as composed by
`service_create_event`).  A pydantic `Event` object is always truthy, so
the `if result:` test takes its true branch on every `.ok`. -/
def event_creator_node (oracle : Except String (Option EventCreatorLLM))
    (svc : Except SvcErr EventObj) (state : ConvState) : ConvState :=
  let event_name := state.event_name
  match oracle with
  | .error e =>
      { state with bot_response := some ("❌ Error técnico: " ++ e),
                   current_step := some "error", processing_status := some "error" }
  | .ok content =>
      let llm := content.getD eventCreatorUnparseableLLM
      if llm.should_create.getD true then
        match svc with
        | .error (.invalidDate ex) =>
            { state with bot_response := some ex.bot_message,
                         current_step := some "error", processing_status := some "error" }
        | .error (.backend _) =>
            { state with bot_response := some "❌ No pude crear el evento. Por favor revisa los datos y vuelve a intentarlo.",
                         current_step := some "error", processing_status := some "error" }
        | .ok ev =>
            { state with event_id := ev.id,
                         bot_response := some ("✅ Evento '" ++ pyShowOpt event_name ++ "' creado. Creando grupo WhatsApp..."),
                         current_step := some "create_whatsapp_group",
                         processing_status := some "creating_group" }
      else
        { state with bot_response := some (llm.bot_response.getD "Error en validación"),
                     current_step := some (llm.next_step.getD "error"),
                     processing_status := some (llm.processing_status.getD "error") }

/-! ### WhatsApp group activator node (whatsapp_group_creator_node.py) -/

/-- The activator oracle's JSON reply (whatsapp_group_creator_node.py lines 29-35). -/
structure WspLLM where
  should_activate : Option Bool
  bot_response : Option String
  next_step : Option String
  processing_status : Option String
deriving DecidableEq, Repr

/-- Fallback dictionary when the activator oracle output is unparseable
(whatsapp_group_creator_node.py line 75). -/
def wspUnparseableLLM : WspLLM :=
  ⟨some true, some "Activando evento para generar grupo.", some "pending_group", some "completed"⟩

/-- Default success message (whatsapp_group_creator_node.py lines 86-90). -/
def wspActivatedDefaultMsg : String :=
  "✅ Evento activado correctamente. " ++
  "El grupo de WhatsApp se está generando en segundo plano. " ++
  "En unos momentos estará listo y podrás consultar el enlace."

/-- `whatsapp_group_creator_node` (whatsapp_group_creator_node.py lines
39-106).  `activate` is the outcome the backend `activate_event` call
would have; the returned `Bool` records whether that call was made. -/
def whatsapp_group_creator_node (oracle : Except String (Option WspLLM))
    (activate : Except String EventObj) (state : ConvState) : ConvState × Bool :=
  let event_id := state.event_id
  if state.processing_status ≠ some "creating_group" ∨ optStrTruthy event_id = false then
    ({ state with bot_response := some "❌ No se puede crear el grupo porque no existe un evento válido.",
                  current_step := some "error", processing_status := some "error" }, false)
  else
    match oracle with
    | .error e =>
        ({ state with bot_response := some ("❌ Error creando grupo: " ++ e),
                      current_step := some "error", processing_status := some "error" }, false)
    | .ok content =>
        let llm := content.getD wspUnparseableLLM
        if llm.should_activate.getD true && optStrTruthy event_id then
          match activate with
          | .error e =>
              ({ state with bot_response := some ("❌ Error creando grupo: " ++ e),
                            current_step := some "error", processing_status := some "error" }, true)
          | .ok _ =>
              ({ state with pending_event_id := event_id,
                            bot_response := some (llm.bot_response.getD wspActivatedDefaultMsg),
                            current_step := some (llm.next_step.getD "pending_group"),
                            processing_status := some (llm.processing_status.getD "completed") }, true)
        else
          ({ state with bot_response := some (llm.bot_response.getD "Error en creación de grupo"),
                        current_step := some (llm.next_step.getD "error"),
                        processing_status := some (llm.processing_status.getD "error") }, false)

/-! ### Group status checker node (group_status_checker_node.py) -/

/-- The status-decision oracle's JSON reply (group_status_checker_node.py
lines 32-38). -/
structure StatusDecLLM where
  should_check : Option Bool
  bot_response : Option String
  next_step : Option String
  processing_status : Option String
deriving DecidableEq, Repr

/-- The response-generation oracle's JSON reply
(group_status_checker_node.py lines 63-68). -/
structure StatusRespLLM where
  bot_response : Option String
  current_step : Option String
  processing_status : Option String
deriving DecidableEq, Repr

/-- `MessageGroup` (models.py lines 79-95), reduced to the one field the
status checker reads. -/
structure MessageGroupObj where
  link : Option String
deriving DecidableEq, Repr

/-- `_should_check_status` (group_status_checker_node.py lines 86-118):
oracle raise gives the fixed error dictionary, unparseable output the
fixed check fallback, otherwise the parsed reply. -/
def should_check_status (oracle : Except String (Option StatusDecLLM)) : StatusDecLLM :=
  match oracle with
  | .error _ =>
      ⟨some false, some "No puedo verificar el estado en este momento. Intenta más tarde.",
       some "error", some "error"⟩
  | .ok none =>
      ⟨some true, some "Verificaré el estado del grupo.", some "wait", some "pending"⟩
  | .ok (some d) => d

/-- `_get_group_status` (group_status_checker_node.py lines 121-135):
`(status_result, group_link, error_message)` from the backend call
outcome.  `get_group_by_id` returns `None` when the search finds no
group (lukia_api_client.py lines 168-171), modelled as `.ok none`;
a pydantic `MessageGroup` always has the `link` attribute. -/
def get_group_status (backend : Except String (Option MessageGroupObj)) :
    String × String × String :=
  match backend with
  | .error _ => ("error", "No disponible", "Error interno")
  | .ok none => ("not_found", "No disponible", "")
  | .ok (some g) =>
      if optStrTruthy g.link then ("ready", g.link.getD "", "")
      else ("pending", "No disponible", "")

/-- The fallback response table of group_status_checker_node.py lines
162-185 (`fallback_responses.get(status_result, fallback_responses["error"])`). -/
def statusFallbackResponse (status_result group_link : String) : StatusRespLLM :=
  if status_result == "ready" then
    ⟨some ("¡Perfecto! 🎉 Tu grupo está listo: " ++ group_link), some "completed", some "completed"⟩
  else if status_result == "pending" then
    ⟨some "⏳ Tu grupo se está generando. Consulta en unos momentos.", some "wait", some "pending"⟩
  else if status_result == "not_found" then
    ⟨some "No encontré un grupo para ese evento. ¿Podrías verificar el ID?", some "error", some "error"⟩
  else
    ⟨some "Hubo un problema consultando el estado. Intenta de nuevo en unos momentos.", some "error", some "error"⟩

/-- `_generate_status_response` (group_status_checker_node.py lines
138-194): oracle raise gives the fixed error dictionary, unparseable
output the status-keyed fallback, otherwise the parsed reply. -/
def generate_status_response (oracle : Except String (Option StatusRespLLM))
    (status_result group_link : String) : StatusRespLLM :=
  match oracle with
  | .error _ =>
      ⟨some "No puedo generar una respuesta en este momento.", some "error", some "error"⟩
  | .ok none => statusFallbackResponse status_result group_link
  | .ok (some r) => r

/-- `group_status_checker_node` (group_status_checker_node.py lines
197-244).  `oracle1` is the should-check oracle call, `backend` the
`get_group_status` backend call, `oracle2` the response-generation
oracle call. -/
def group_status_checker_node (oracle1 : Except String (Option StatusDecLLM))
    (backend : Except String (Option MessageGroupObj))
    (oracle2 : Except String (Option StatusRespLLM)) (state : ConvState) : ConvState :=
  let event_id := pyOr state.event_id state.pending_event_id
  let decision := should_check_status oracle1
  if decision.should_check.getD true && optStrTruthy event_id then
    let r := get_group_status backend
    let st1 := if r.1 == "ready" then
                 { state with whatsapp_group_url := some r.2.1,
                              came_from_status_check := some true }
               else state
    let response_data := generate_status_response oracle2 r.1 r.2.1
    { st1 with bot_response := some (response_data.bot_response.getD "Estado consultado."),
               current_step := some (response_data.current_step.getD "wait"),
               processing_status := some (response_data.processing_status.getD "pending") }
  else
    { state with bot_response := some (decision.bot_response.getD "Para consultar el estado, necesito el ID del evento. ¿Podrías proporcionármelo?"),
                 current_step := some (decision.next_step.getD "wait"),
                 processing_status := some (decision.processing_status.getD "pending") }

/-! ### Completion node (completion_node.py) -/

/-- The completion oracle's JSON reply (completion_node.py lines 38-43). -/
structure CompletionLLM where
  action : Option String
  bot_response : Option String
  reset_state : Option Bool
deriving DecidableEq, Repr

/-- Fallback dictionary when the completion oracle output is
unparseable (completion_node.py lines 83-87). -/
def completionUnparseableLLM : CompletionLLM :=
  ⟨some "general_response", some "¡Proceso completado! ¿Te gustaría crear una nueva campaña?", some false⟩

/-- The default summary text of completion_node.py lines 110-122. -/
def completionSummaryDefault (state : ConvState) : String :=
  "\n🎉 ¡Campaña completada!\n\n📊 Detalles:\n• Campaña: " ++ pyShowOpt state.campaign_name ++
  " (" ++ pyShowOpt state.campaign_id ++ ")\n• Evento: " ++ pyShowOpt state.event_name ++
  " (" ++ pyShowOpt state.event_id ++ ")\n• Fecha: " ++ pyShowOpt state.event_date ++
  "\n• Grupo: " ++ (pyOr state.whatsapp_group_url (some "En proceso...")).getD "" ++
  "\n\n¿Crear otra campaña? Escribe 'nueva' o 'hola'.\n"

/-- `completion_node` (completion_node.py lines 47-129).  The reset
branch returns the literal `new_state` dictionary of lines 91-105; keys
it does not list (`timezone`, `pending_event_id`,
`came_from_status_check`) keep their previous channel values when
LangGraph merges the returned update into the state. -/
def completion_node (oracle : Except String (Option CompletionLLM)) (state : ConvState) : ConvState :=
  match oracle with
  | .error _ =>
      { state with bot_response := some "¡Campaña completada! ¿Crear otra? Escribe 'nueva'." }
  | .ok content =>
      let llm := content.getD completionUnparseableLLM
      if llm.action == some "new_campaign" || llm.reset_state.getD false then
        { state with campaign_name := none, event_name := none, event_date := none,
                     admins := none, context := none,
                     current_step := some "campaign_name", user_message := "",
                     bot_response := some "¡Nueva campaña! ¿Cuál será el nombre?",
                     campaign_id := none, event_id := none, whatsapp_group_url := none,
                     processing_status := some "idle" }
      else
        { state with bot_response := some (llm.bot_response.getD (completionSummaryDefault state)) }

/-! ### Graph wrapper (campaign_graph.py) -/

/-- What `CampaignBotStateGraph.process_message` hands back to the
transport layer: the graph's final record, or — when graph execution
raised — the literal three-key error dictionary of campaign_graph.py
lines 50-55. -/
inductive ProcessMessageOut where
  | ok (s : ConvState)
  | errDict (bot_response current_step processing_status : String)
deriving DecidableEq, Repr

/-- `CampaignBotStateGraph.process_message` (campaign_graph.py lines
31-55): the whole turn is wrapped in try/except, so an exception out of
graph execution (`graphResult = .error e`) becomes the fixed error
dictionary and is never re-raised. -/
def process_message (graphResult : Except String ConvState) : ProcessMessageOut :=
  match graphResult with
  | .ok s => .ok s
  | .error e => .errDict ("❌ Error: " ++ e) "error" "error"

/-- A conversation record with every optional key absent, as a base for
concrete test states. -/
def blankState : ConvState :=
  ⟨"", none, none, none, none, none, none, none, none, none, none, none, none, none, none⟩

/-! ## Theorems -/

/-- C9: `CampaignBotStateGraph.process_message` never raises to its
caller — when graph execution throws any exception it returns the
dictionary with a non-empty error `bot_response`,
`current_step = "error"` and `processing_status = "error"`. -/
theorem process_message_never_raises (e : String) :
    process_message (.error e) = .errDict ("❌ Error: " ++ e) "error" "error" ∧
    ("❌ Error: " ++ e) ≠ "" := by
  refine ⟨rfl, ?_⟩
  intro h
  have h2 := congrArg String.length h
  simp [String.length_append] at h2
  exact absurd h2.1 (by decide)

/-- C3: whenever the incoming record has `processing_status` different
from `"creating_group"` or an empty `event_id`, the group-activator node
short-circuits to the error record without performing the backend
`activate_event` call, and the outcome does not depend on either oracle
or backend argument. -/
theorem whatsapp_guard_short_circuits (oracle : Except String (Option WspLLM))
    (activate : Except String EventObj) (state : ConvState)
    (h : state.processing_status ≠ some "creating_group" ∨ optStrTruthy state.event_id = false) :
    whatsapp_group_creator_node oracle activate state =
      ({ state with
          bot_response := some "❌ No se puede crear el grupo porque no existe un evento válido.",
          current_step := some "error", processing_status := some "error" }, false) := by
  unfold whatsapp_group_creator_node
  rw [if_pos h]

/-- Witness for C3 at a concrete input: a record still in
`creating_group` whose `event_id` is empty is rejected without a
backend call. -/
theorem whatsapp_guard_short_circuits_witness :
    ((({ blankState with processing_status := some "creating_group", event_id := some "" } : ConvState).processing_status ≠ some "creating_group" ∨
      optStrTruthy ({ blankState with processing_status := some "creating_group", event_id := some "" } : ConvState).event_id = false) ∧
     whatsapp_group_creator_node (.ok none) (.ok ⟨some "e1"⟩)
        { blankState with processing_status := some "creating_group", event_id := some "" } =
      ({ blankState with processing_status := some "error", event_id := some "", bot_response := some "❌ No se puede crear el grupo porque no existe un evento válido.", current_step := some "error" }, false)) :=
  ⟨Or.inr (by decide),
   whatsapp_guard_short_circuits (.ok none) (.ok ⟨some "e1"⟩) _ (Or.inr (by decide))⟩

/-- C6 counterexample: with the record at `processing_status = "pending"`
and a failing oracle call, the router returns the apology but leaves
`processing_status` as `"pending"`, not `"idle"` as the claim states. -/
theorem router_failure_keeps_status_counterexample :
    (router_node (.error "timeout")
      { blankState with current_step := some "confirmation", processing_status := some "pending" }).processing_status = some "pending" := by
  rfl

/-- C6 amended: if the router's oracle call raises, the node returns the
fixed apology with `current_step` and `processing_status` both unchanged
(not reset to idle); if the oracle output is unparseable, the node
instead treats the turn as out-of-context: fixed fallback message,
`current_step = "out_of_context"`, `processing_status = "out_of_context"`.
In neither case does anything escape to the caller. -/
theorem router_oracle_failure_fallback (state : ConvState) (e : String) :
    router_node (.error e) state =
      { state with bot_response := some "Ocurrió un error. ¿Puedes repetir tu mensaje?" } ∧
    router_node (.ok none) state =
      { state with current_step := some "out_of_context",
                   bot_response := routerUnparseableLLM.bot_response,
                   processing_status := some "out_of_context" } := by
  exact ⟨rfl, rfl⟩

/-- C7 counterexample: a record that passes the hard guard, an oracle
that does not veto, and a failing backend `activate_event` call leave
`pending_event_id` unset (`none`), while `event_id` is `"e1"` — so the
activation attempt did not record `pending_event_id = event_id`. -/
theorem whatsapp_pending_id_counterexample :
    (whatsapp_group_creator_node (.ok (some ⟨some true, none, none, none⟩)) (.error "backend down")
      { blankState with processing_status := some "creating_group", event_id := some "e1" }).1.pending_event_id = none ∧
    ({ blankState with processing_status := some "creating_group", event_id := some "e1" } : ConvState).event_id = some "e1" := by
  exact ⟨rfl, rfl⟩

/-- C7 amended: `pending_event_id = event_id` is recorded exactly on a
*successful* activation attempt — hard guard passed, oracle did not
veto, and the backend `activate_event` call returned without raising
(on a raising backend call the node goes to the error record with
`pending_event_id` untouched). -/
theorem whatsapp_records_pending_on_success (oracle : Except String (Option WspLLM))
    (activate : Except String EventObj) (state : ConvState)
    (content : Option WspLLM) (ev : EventObj)
    (hps : state.processing_status = some "creating_group")
    (hev : optStrTruthy state.event_id = true)
    (ho : oracle = .ok content)
    (hnv : (content.getD wspUnparseableLLM).should_activate.getD true = true)
    (ha : activate = .ok ev) :
    (whatsapp_group_creator_node oracle activate state).1.pending_event_id = state.event_id ∧
    (whatsapp_group_creator_node oracle activate state).2 = true := by
  subst ho ha
  unfold whatsapp_group_creator_node
  rw [if_neg (by rw [hps, hev]; simp)]
  simp [hnv, hev]

/-- Witness for C7's amended theorem at a concrete input: guard passed,
oracle assent, backend success, so `pending_event_id` ends as `"e1"`. -/
theorem whatsapp_records_pending_on_success_witness :
    (({ blankState with processing_status := some "creating_group", event_id := some "e1" } : ConvState).processing_status = some "creating_group" ∧
     optStrTruthy ({ blankState with processing_status := some "creating_group", event_id := some "e1" } : ConvState).event_id = true) ∧
    ((whatsapp_group_creator_node (.ok (some ⟨some true, none, none, none⟩)) (.ok ⟨some "e1"⟩)
        { blankState with processing_status := some "creating_group", event_id := some "e1" }).1.pending_event_id =
      ({ blankState with processing_status := some "creating_group", event_id := some "e1" } : ConvState).event_id ∧
     (whatsapp_group_creator_node (.ok (some ⟨some true, none, none, none⟩)) (.ok ⟨some "e1"⟩)
        { blankState with processing_status := some "creating_group", event_id := some "e1" }).2 = true) :=
  ⟨⟨rfl, rfl⟩,
   whatsapp_records_pending_on_success _ _ _ (some ⟨some true, none, none, none⟩) ⟨some "e1"⟩
     rfl rfl rfl (by decide) rfl⟩

/-- C5 counterexample: the completion node's new-campaign path leaves
`pending_event_id` and `timezone` at their previous values — here
`pending_event_id` stays `"e1"` and `timezone` stays `"America/Bogota"`
instead of being cleared. -/
theorem completion_reset_counterexample :
    (completion_node (.ok (some ⟨some "new_campaign", none, none⟩))
      { blankState with current_step := some "completed", pending_event_id := some "e1", timezone := some "America/Bogota" }).pending_event_id = some "e1" ∧
    (completion_node (.ok (some ⟨some "new_campaign", none, none⟩))
      { blankState with current_step := some "completed", pending_event_id := some "e1", timezone := some "America/Bogota" }).timezone = some "America/Bogota" := by
  exact ⟨rfl, rfl⟩

/-- C5 amended: on the new-campaign path the completion node clears
`campaign_name`, `event_name`, `event_date`, `admins`, `context`,
`campaign_id`, `event_id` and `whatsapp_group_url` and sets
`current_step = "campaign_name"`, but `timezone` and `pending_event_id`
are *not* among the keys of the returned reset dictionary, so they keep
their previous values; the record carries no session-identifier field at
all (session identity is the LangGraph thread id outside the record, so
it is untouched by every node). -/
theorem completion_reset_clears_fields (content : Option CompletionLLM) (state : ConvState)
    (hr : ((content.getD completionUnparseableLLM).action == some "new_campaign" ||
           (content.getD completionUnparseableLLM).reset_state.getD false) = true) :
    completion_node (.ok content) state =
      { state with campaign_name := none, event_name := none, event_date := none, admins := none, context := none, current_step := some "campaign_name", user_message := "", bot_response := some "¡Nueva campaña! ¿Cuál será el nombre?", campaign_id := none, event_id := none, whatsapp_group_url := none, processing_status := some "idle" } ∧
    (completion_node (.ok content) state).timezone = state.timezone ∧
    (completion_node (.ok content) state).pending_event_id = state.pending_event_id := by
  simp only [completion_node]
  rw [if_pos hr]
  exact ⟨rfl, rfl, rfl⟩

/-- Witness for C5's amended theorem at a concrete input. -/
theorem completion_reset_clears_fields_witness :
    (((some (CompletionLLM.mk (some "new_campaign") none none)).getD completionUnparseableLLM).action == some "new_campaign" ||
     ((some (CompletionLLM.mk (some "new_campaign") none none)).getD completionUnparseableLLM).reset_state.getD false) = true ∧
    (completion_node (.ok (some ⟨some "new_campaign", none, none⟩))
        { blankState with campaign_name := some "C", pending_event_id := some "e1", timezone := some "America/Bogota" } =
      { blankState with pending_event_id := some "e1", timezone := some "America/Bogota", current_step := some "campaign_name", bot_response := some "¡Nueva campaña! ¿Cuál será el nombre?", processing_status := some "idle" } ∧
     (completion_node (.ok (some ⟨some "new_campaign", none, none⟩))
        { blankState with campaign_name := some "C", pending_event_id := some "e1", timezone := some "America/Bogota" }).timezone =
       ({ blankState with campaign_name := some "C", pending_event_id := some "e1", timezone := some "America/Bogota" } : ConvState).timezone ∧
     (completion_node (.ok (some ⟨some "new_campaign", none, none⟩))
        { blankState with campaign_name := some "C", pending_event_id := some "e1", timezone := some "America/Bogota" }).pending_event_id =
       ({ blankState with campaign_name := some "C", pending_event_id := some "e1", timezone := some "America/Bogota" } : ConvState).pending_event_id) :=
  ⟨by decide, completion_reset_clears_fields (some ⟨some "new_campaign", none, none⟩) _ (by decide)⟩

/-- C8: when `create_event_for_campaign` is handed a date string the
parser resolves to a *naive* datetime (no timezone offset), the instant
is read as UTC unchanged — `tz_name` never shifts it; the comparison
against now and, on success, the `EventInput.event_date` both use the
naive wall-clock value, and `tz_name` is only forwarded verbatim as the
`EventInput.timezone` field. -/
theorem create_event_naive_date_read_as_utc (parse : String → Option PyDateTime)
    (now : Int) (cid nm s : String) (adm : List String) (ctx : Option String)
    (tz : String) (d : PyDateTime)
    (hp : parse s = some d) (hn : d.tzOffset = none) :
    create_event_for_campaign parse now cid nm (.str s) adm ctx tz =
      (if d.wall ≤ now then .error pastEventDateError
       else .ok ⟨nm, cid, d.wall, adm, ctx, tz, defaultEventImage⟩) := by
  simp only [create_event_for_campaign]
  rw [hp]
  simp only [createEventValidated, pyNormalizeUTC, hn]

/-- Witness for C8 at a concrete input: a parser that reads
`"2030-01-01"` as the naive instant 5 with `now = 3` creates the event
with `event_date = 5` and the forwarded timezone name. -/
theorem create_event_naive_date_read_as_utc_witness :
    ((fun _ : String => some (PyDateTime.mk 5 none)) "2030-01-01" = some (PyDateTime.mk 5 none) ∧
     (PyDateTime.mk 5 none).tzOffset = none) ∧
    create_event_for_campaign (fun _ : String => some (PyDateTime.mk 5 none)) 3 "c1" "ev"
        (.str "2030-01-01") ["573103435489"] none "America/Lima" =
      (if (5 : Int) ≤ 3 then .error pastEventDateError
       else .ok ⟨"ev", "c1", 5, ["573103435489"], none, "America/Lima", defaultEventImage⟩) :=
  ⟨⟨rfl, rfl⟩,
   create_event_naive_date_read_as_utc (fun _ => some (PyDateTime.mk 5 none)) 3 "c1" "ev"
     "2030-01-01" ["573103435489"] none "America/Lima" (PyDateTime.mk 5 none) rfl rfl⟩

/-- C2: for every event date whose resolved UTC instant is at or before
now, `create_event_for_campaign` raises `InvalidEventDate` before the
backend `create_event` call (a `.error` result means the `EventInput`
was never handed to the backend, whatever `backend` does); the
event-creator node then produces the error record with the friendly
message, leaving `event_id` untouched; and the event-creator decision
routes that record to the terminal END edge, so the group-activator node
is never invoked in the same turn. -/
theorem past_event_date_never_reaches_backend (parse : String → Option PyDateTime)
    (now : Int) (cid nm s : String) (adm : List String) (ctx : Option String)
    (tz : String) (d : PyDateTime)
    (backend : EventInput → Except String EventObj)
    (content : Option EventCreatorLLM) (state : ConvState)
    (hp : parse s = some d) (hle : pyNormalizeUTC d ≤ now)
    (hsc : (content.getD eventCreatorUnparseableLLM).should_create.getD true = true) :
    create_event_for_campaign parse now cid nm (.str s) adm ctx tz = .error pastEventDateError ∧
    event_creator_node (.ok content)
        (service_create_event backend (create_event_for_campaign parse now cid nm (.str s) adm ctx tz))
        state =
      { state with bot_response := some pastEventDateError.bot_message,
                   current_step := some "error", processing_status := some "error" } ∧
    (event_creator_node (.ok content)
        (service_create_event backend (create_event_for_campaign parse now cid nm (.str s) adm ctx tz))
        state).event_id = state.event_id ∧
    event_creator_decision
      (event_creator_node (.ok content)
        (service_create_event backend (create_event_for_campaign parse now cid nm (.str s) adm ctx tz))
        state) = "error" ∧
    event_creator_edges (event_creator_decision
      (event_creator_node (.ok content)
        (service_create_event backend (create_event_for_campaign parse now cid nm (.str s) adm ctx tz))
        state)) = .terminalEnd := by
  have hcreate : create_event_for_campaign parse now cid nm (.str s) adm ctx tz =
      .error pastEventDateError := by
    simp only [create_event_for_campaign]
    rw [hp]
    simp only [createEventValidated]
    rw [if_pos hle]
  have hnode : event_creator_node (.ok content)
      (service_create_event backend (create_event_for_campaign parse now cid nm (.str s) adm ctx tz))
      state =
      { state with bot_response := some pastEventDateError.bot_message,
                   current_step := some "error", processing_status := some "error" } := by
    rw [hcreate]
    simp only [service_create_event, event_creator_node]
    rw [if_pos hsc]
  refine ⟨hcreate, hnode, ?_, ?_, ?_⟩
  · rw [hnode]
  · rw [hnode]
    rfl
  · rw [hnode]
    rfl

/-- Witness for C2 at a concrete input: the instant 2 (naive, read as
UTC) is at or before now = 2, so the event is rejected and the error
path is taken end to end. -/
theorem past_event_date_never_reaches_backend_witness :
    ((fun _ : String => some (PyDateTime.mk 2 none)) "2000-01-01" = some (PyDateTime.mk 2 none) ∧
     pyNormalizeUTC (PyDateTime.mk 2 none) ≤ 2 ∧
     ((some (EventCreatorLLM.mk (some true) none none none none)).getD eventCreatorUnparseableLLM).should_create.getD true = true) ∧
    (create_event_for_campaign (fun _ : String => some (PyDateTime.mk 2 none)) 2 "c1" "ev"
        (.str "2000-01-01") ["573103435489"] none "America/Bogota" = .error pastEventDateError ∧
     event_creator_node (.ok (some ⟨some true, none, none, none, none⟩))
        (service_create_event (fun _ => .ok ⟨some "e1"⟩)
          (create_event_for_campaign (fun _ : String => some (PyDateTime.mk 2 none)) 2 "c1" "ev"
            (.str "2000-01-01") ["573103435489"] none "America/Bogota"))
        blankState =
      { blankState with bot_response := some pastEventDateError.bot_message,
                        current_step := some "error", processing_status := some "error" } ∧
     (event_creator_node (.ok (some ⟨some true, none, none, none, none⟩))
        (service_create_event (fun _ => .ok ⟨some "e1"⟩)
          (create_event_for_campaign (fun _ : String => some (PyDateTime.mk 2 none)) 2 "c1" "ev"
            (.str "2000-01-01") ["573103435489"] none "America/Bogota"))
        blankState).event_id = blankState.event_id ∧
     event_creator_decision
      (event_creator_node (.ok (some ⟨some true, none, none, none, none⟩))
        (service_create_event (fun _ => .ok ⟨some "e1"⟩)
          (create_event_for_campaign (fun _ : String => some (PyDateTime.mk 2 none)) 2 "c1" "ev"
            (.str "2000-01-01") ["573103435489"] none "America/Bogota"))
        blankState) = "error" ∧
     event_creator_edges (event_creator_decision
      (event_creator_node (.ok (some ⟨some true, none, none, none, none⟩))
        (service_create_event (fun _ => .ok ⟨some "e1"⟩)
          (create_event_for_campaign (fun _ : String => some (PyDateTime.mk 2 none)) 2 "c1" "ev"
            (.str "2000-01-01") ["573103435489"] none "America/Bogota"))
        blankState)) = .terminalEnd) :=
  ⟨⟨rfl, by decide, by decide⟩,
   past_event_date_never_reaches_backend (fun _ => some (PyDateTime.mk 2 none)) 2 "c1" "ev"
     "2000-01-01" ["573103435489"] none "America/Bogota" (PyDateTime.mk 2 none)
     (fun _ => .ok ⟨some "e1"⟩) (some ⟨some true, none, none, none, none⟩) blankState
     rfl (by decide) (by decide)⟩

/-- C4 counterexample: the backend reports the group ready (link
present), but the second oracle call returns parseable JSON saying
`current_step = "wait"`, and the node adopts it — `whatsapp_group_url`
is set to the link yet `current_step` is `"wait"`, not `"completed"`;
so oracle phrasing does alter the claimed outcome-to-step mapping. -/
theorem status_mapping_counterexample :
    (group_status_checker_node (.ok (some ⟨some true, none, none, none⟩))
        (.ok (some ⟨some "https://chat.whatsapp.com/abc"⟩))
        (.ok (some ⟨some "Sigue esperando un momento", some "wait", some "pending"⟩))
        { blankState with current_step := some "wait", processing_status := some "pending", event_id := some "e1" }).whatsapp_group_url = some "https://chat.whatsapp.com/abc" ∧
    (group_status_checker_node (.ok (some ⟨some true, none, none, none⟩))
        (.ok (some ⟨some "https://chat.whatsapp.com/abc"⟩))
        (.ok (some ⟨some "Sigue esperando un momento", some "wait", some "pending"⟩))
        { blankState with current_step := some "wait", processing_status := some "pending", event_id := some "e1" }).current_step = some "wait" := by
  exact ⟨rfl, rfl⟩

/-- C4 amended: when the status checker queries the backend (decision
oracle assents and an event id is available), a ready result always sets
`whatsapp_group_url` to the link, whatever the second oracle returns;
the claimed outcome-to-step mapping (ready → completed/completed,
found-without-link → pending/wait, not-found → error, backend exception
→ error) is the *fallback* contract: it holds whenever the second
oracle's output is unparseable, while parseable oracle output dictates
`current_step`/`processing_status` directly. -/
theorem status_outcome_mapping (oracle1 : Except String (Option StatusDecLLM))
    (backend : Except String (Option MessageGroupObj))
    (oracle2 : Except String (Option StatusRespLLM)) (state : ConvState)
    (hdec : (should_check_status oracle1).should_check.getD true = true)
    (hev : optStrTruthy (pyOr state.event_id state.pending_event_id) = true) :
    (∀ g, backend = .ok (some g) → optStrTruthy g.link = true →
       (group_status_checker_node oracle1 backend oracle2 state).whatsapp_group_url = some (g.link.getD "")) ∧
    (oracle2 = .ok none →
      (∀ g, backend = .ok (some g) → optStrTruthy g.link = true →
         (group_status_checker_node oracle1 backend oracle2 state).current_step = some "completed" ∧
         (group_status_checker_node oracle1 backend oracle2 state).processing_status = some "completed") ∧
      (∀ g, backend = .ok (some g) → optStrTruthy g.link = false →
         (group_status_checker_node oracle1 backend oracle2 state).processing_status = some "pending" ∧
         (group_status_checker_node oracle1 backend oracle2 state).current_step = some "wait") ∧
      (backend = .ok none →
         (group_status_checker_node oracle1 backend oracle2 state).current_step = some "error") ∧
      (∀ e, backend = .error e →
         (group_status_checker_node oracle1 backend oracle2 state).current_step = some "error")) := by
  have hcond : ((should_check_status oracle1).should_check.getD true &&
      optStrTruthy (pyOr state.event_id state.pending_event_id)) = true := by
    rw [hdec, hev]
    rfl
  constructor
  · intro g hb hl
    subst hb
    simp only [group_status_checker_node]
    rw [if_pos hcond]
    simp [get_group_status, hl]
  · intro ho2
    subst ho2
    refine ⟨?_, ?_, ?_, ?_⟩
    · intro g hb hl
      subst hb
      simp only [group_status_checker_node]
      rw [if_pos hcond]
      simp [get_group_status, hl, generate_status_response, statusFallbackResponse]
    · intro g hb hl
      subst hb
      simp only [group_status_checker_node]
      rw [if_pos hcond]
      simp [get_group_status, hl, generate_status_response, statusFallbackResponse]
    · intro hb
      subst hb
      simp only [group_status_checker_node]
      rw [if_pos hcond]
      simp [get_group_status, generate_status_response, statusFallbackResponse]
    · intro e hb
      subst hb
      simp only [group_status_checker_node]
      rw [if_pos hcond]
      simp [get_group_status, generate_status_response, statusFallbackResponse]

/-- Witness for C4's amended theorem at a concrete input: decision
oracle assents, event id `"e1"` is available, and the fallback mapping
together with the unconditional link recording hold there. -/
theorem status_outcome_mapping_witness :
    ((should_check_status (.ok (some ⟨some true, none, none, none⟩))).should_check.getD true = true ∧
     optStrTruthy (pyOr ({ blankState with event_id := some "e1" } : ConvState).event_id
       ({ blankState with event_id := some "e1" } : ConvState).pending_event_id) = true) ∧
    ((∀ g, (.ok (some ⟨some "https://chat.whatsapp.com/abc"⟩) : Except String (Option MessageGroupObj)) = .ok (some g) → optStrTruthy g.link = true →
        (group_status_checker_node (.ok (some ⟨some true, none, none, none⟩))
          (.ok (some ⟨some "https://chat.whatsapp.com/abc"⟩)) (.ok none)
          { blankState with event_id := some "e1" }).whatsapp_group_url = some (g.link.getD "")) ∧
     ((.ok none : Except String (Option StatusRespLLM)) = .ok none →
       (∀ g, (.ok (some ⟨some "https://chat.whatsapp.com/abc"⟩) : Except String (Option MessageGroupObj)) = .ok (some g) → optStrTruthy g.link = true →
          (group_status_checker_node (.ok (some ⟨some true, none, none, none⟩))
            (.ok (some ⟨some "https://chat.whatsapp.com/abc"⟩)) (.ok none)
            { blankState with event_id := some "e1" }).current_step = some "completed" ∧
          (group_status_checker_node (.ok (some ⟨some true, none, none, none⟩))
            (.ok (some ⟨some "https://chat.whatsapp.com/abc"⟩)) (.ok none)
            { blankState with event_id := some "e1" }).processing_status = some "completed") ∧
       (∀ g, (.ok (some ⟨some "https://chat.whatsapp.com/abc"⟩) : Except String (Option MessageGroupObj)) = .ok (some g) → optStrTruthy g.link = false →
          (group_status_checker_node (.ok (some ⟨some true, none, none, none⟩))
            (.ok (some ⟨some "https://chat.whatsapp.com/abc"⟩)) (.ok none)
            { blankState with event_id := some "e1" }).processing_status = some "pending" ∧
          (group_status_checker_node (.ok (some ⟨some true, none, none, none⟩))
            (.ok (some ⟨some "https://chat.whatsapp.com/abc"⟩)) (.ok none)
            { blankState with event_id := some "e1" }).current_step = some "wait") ∧
       ((.ok (some ⟨some "https://chat.whatsapp.com/abc"⟩) : Except String (Option MessageGroupObj)) = .ok none →
          (group_status_checker_node (.ok (some ⟨some true, none, none, none⟩))
            (.ok (some ⟨some "https://chat.whatsapp.com/abc"⟩)) (.ok none)
            { blankState with event_id := some "e1" }).current_step = some "error") ∧
       (∀ e, (.ok (some ⟨some "https://chat.whatsapp.com/abc"⟩) : Except String (Option MessageGroupObj)) = .error e →
          (group_status_checker_node (.ok (some ⟨some true, none, none, none⟩))
            (.ok (some ⟨some "https://chat.whatsapp.com/abc"⟩)) (.ok none)
            { blankState with event_id := some "e1" }).current_step = some "error"))) :=
  ⟨⟨rfl, rfl⟩,
   status_outcome_mapping (.ok (some ⟨some true, none, none, none⟩))
     (.ok (some ⟨some "https://chat.whatsapp.com/abc"⟩)) (.ok none)
     { blankState with event_id := some "e1" } rfl rfl⟩

/-! ### Helper lemmas on the router pipeline -/

theorem router_apply_parsed_processing_status (p : RouterParsed) (cs um : String) (s : ConvState) :
    (router_apply_parsed p cs um s).processing_status = s.processing_status := rfl

theorem router_apply_parsed_bot_response (p : RouterParsed) (cs um : String) (s : ConvState) :
    (router_apply_parsed p cs um s).bot_response = s.bot_response := rfl

theorem router_apply_parsed_admins (p : RouterParsed) (cs um : String) (s : ConvState) :
    (router_apply_parsed p cs um s).admins = applyAdmins p.admins (cs == "admins") um s.admins := rfl

theorem router_apply_confirm_admins (uc : Option Bool) (s : ConvState) :
    (router_apply_confirm uc s).admins = s.admins := by
  unfold router_apply_confirm
  cases uc with
  | none => rfl
  | some b =>
      cases b with
      | false => rfl
      | true => dsimp only; split <;> rfl

theorem router_apply_confirm_required (uc : Option Bool) (s : ConvState) :
    requiredDataComplete (router_apply_confirm uc s) = requiredDataComplete s := by
  unfold router_apply_confirm
  cases uc with
  | none => rfl
  | some b =>
      cases b with
      | false => rfl
      | true => dsimp only; split <;> rfl

theorem router_apply_confirm_ps_some_true (s : ConvState) :
    (router_apply_confirm (some true) s).processing_status =
      (if requiredDataComplete s then some "creating_campaign" else some "idle") := by
  unfold router_apply_confirm
  dsimp only
  split <;> rfl

theorem router_apply_confirm_bot_some_true_incomplete (s : ConvState)
    (h : requiredDataComplete s = false) :
    (router_apply_confirm (some true) s).bot_response =
      some "Faltan algunos datos. Te ayudo a completarlos." := by
  unfold router_apply_confirm
  simp [h]

theorem router_apply_event_id_processing_status (pv : Option String) (s : ConvState) :
    (router_apply_event_id pv s).processing_status = s.processing_status := by
  unfold router_apply_event_id; split <;> rfl

theorem router_apply_event_id_bot_response (pv : Option String) (s : ConvState) :
    (router_apply_event_id pv s).bot_response = s.bot_response := by
  unfold router_apply_event_id; split <;> rfl

theorem router_apply_event_id_admins (pv : Option String) (s : ConvState) :
    (router_apply_event_id pv s).admins = s.admins := by
  unfold router_apply_event_id; split <;> rfl

theorem router_apply_event_id_required (pv : Option String) (s : ConvState) :
    requiredDataComplete (router_apply_event_id pv s) = requiredDataComplete s := by
  unfold router_apply_event_id; split <;> rfl

/-- In-domain unfolding of the router: with a parsed, campaign-related
oracle reply, the node is the composition of the adopt step, the parsed
field application, the confirmation handling and the event-id shortcut. -/
theorem router_node_ok_related (llm : RouterLLM) (state : ConvState)
    (hdom : llm.is_campaign_related.getD true = true) :
    router_node (.ok (some llm)) state =
      router_apply_event_id (llm.parsed.getD emptyRouterParsed).event_id
        (router_apply_confirm (llm.parsed.getD emptyRouterParsed).user_confirms
          (router_apply_parsed (llm.parsed.getD emptyRouterParsed)
            (state.current_step.getD "greeting") state.user_message
            (if (llm.processing_status.getD "idle") == "checking_status" || (llm.processing_status.getD "idle") == "out_of_context" then
               { state with current_step := some (llm.next_step.getD (state.current_step.getD "greeting")),
                            bot_response := some (llm.bot_response.getD "¿Cómo puedo ayudarte?"),
                            processing_status := some (llm.processing_status.getD "idle") }
             else
               { state with current_step := some (llm.next_step.getD (state.current_step.getD "greeting")),
                            bot_response := some (llm.bot_response.getD "¿Cómo puedo ayudarte?") }))) := by
  simp only [router_node, Option.getD_some, hdom, Bool.not_true, Bool.false_eq_true, if_false]

/-! ### Helper lemmas on the phone-number scan -/

theorem takeDigitsUpTo_fst_le_leadingDigits (n : Nat) (cs : List Char) :
    (takeDigitsUpTo n cs).1.length ≤ leadingDigits cs := by
  induction cs generalizing n with
  | nil => cases n <;> simp [takeDigitsUpTo, leadingDigits]
  | cons c rest ih =>
      cases n with
      | zero => simp [takeDigitsUpTo]
      | succ m =>
          unfold takeDigitsUpTo leadingDigits
          by_cases h : c.isDigit
          · simp only [h, if_true, List.length_cons]
            exact Nat.succ_le_succ (ih m)
          · simp [h]

theorem hasRun7_false_leadingDigits (cs : List Char) (h : hasRun7 cs = false) :
    leadingDigits cs < 7 := by
  cases cs with
  | nil => simp [leadingDigits]
  | cons c rest =>
      unfold hasRun7 at h
      simp only [Bool.or_eq_false_iff, decide_eq_false_iff_not] at h
      omega

theorem hasRun7_false_tail (c : Char) (rest : List Char)
    (h : hasRun7 (c :: rest) = false) : hasRun7 rest = false := by
  unfold hasRun7 at h
  simp only [Bool.or_eq_false_iff] at h
  exact h.2

theorem findPhonesGo_nil_of_no_run (fuel : Nat) (cs : List Char)
    (h : hasRun7 cs = false) : findPhonesGo fuel cs = [] := by
  induction fuel generalizing cs with
  | zero => cases cs <;> rfl
  | succ f ih =>
      cases cs with
      | nil => rfl
      | cons c rest =>
          have htail : hasRun7 rest = false := hasRun7_false_tail c rest h
          have hltrest : leadingDigits rest < 7 := hasRun7_false_leadingDigits rest htail
          have hlt : leadingDigits (c :: rest) < 7 := hasRun7_false_leadingDigits (c :: rest) h
          unfold findPhonesGo
          by_cases hplus : c == '+'
          · simp only [hplus, if_true]
            have hle := takeDigitsUpTo_fst_le_leadingDigits 15 rest
            have hneg : ¬ (7 ≤ (takeDigitsUpTo 15 rest).1.length) := by omega
            rw [if_neg hneg]
            exact ih rest htail
          · by_cases hdig : c.isDigit
            · simp only [hplus, if_false, hdig, if_true]
              have hle := takeDigitsUpTo_fst_le_leadingDigits 15 (c :: rest)
              have hneg : ¬ (7 ≤ (takeDigitsUpTo 15 (c :: rest)).1.length) := by omega
              rw [if_neg hneg]
              exact ih rest htail
            · simp only [hplus, if_false, hdig]
              exact ih rest htail

theorem findPhones_nil_of_no_run (cs : List Char) (h : hasRun7 cs = false) :
    findPhones cs = [] :=
  findPhonesGo_nil_of_no_run cs.length cs h

/-- C10: in the router, when the oracle reply is campaign-related but
extracts no admins, the step is `"admins"`, and the user message is
non-blank yet contains no run of 7-15 digits, `re.findall` comes back
empty and the whole stripped message becomes the one-element `admins`
list — the field is not left unset. -/
theorem router_admins_non_phone_fallback (llm : RouterLLM) (state : ConvState)
    (hdom : llm.is_campaign_related.getD true = true)
    (hadm : (llm.parsed.getD emptyRouterParsed).admins = none)
    (hstep : state.current_step = some "admins")
    (hmsg : (pyStrip state.user_message).isEmpty = false)
    (hrun : hasRun7 state.user_message.data = false) :
    (router_node (.ok (some llm)) state).admins = some [pyStrip state.user_message] := by
  rw [router_node_ok_related llm state hdom, router_apply_event_id_admins,
      router_apply_confirm_admins, router_apply_parsed_admins, hadm, hstep]
  simp only [Option.getD_some]
  simp [applyAdmins, adminsTruthy, hmsg, findPhones_nil_of_no_run state.user_message.data hrun]

/-- Witness for C10 at a concrete input: the message "Juan Perez" at
step `admins`, with no parsed admins, ends up as `admins = ["Juan Perez"]`. -/
theorem router_admins_non_phone_fallback_witness :
    ((RouterLLM.mk none none none none none).is_campaign_related.getD true = true ∧
     ((RouterLLM.mk none none none none none).parsed.getD emptyRouterParsed).admins = none ∧
     ({ blankState with current_step := some "admins", user_message := "Juan Perez" } : ConvState).current_step = some "admins" ∧
     (pyStrip ({ blankState with current_step := some "admins", user_message := "Juan Perez" } : ConvState).user_message).isEmpty = false ∧
     hasRun7 ({ blankState with current_step := some "admins", user_message := "Juan Perez" } : ConvState).user_message.data = false) ∧
    (router_node (.ok (some (RouterLLM.mk none none none none none)))
        { blankState with current_step := some "admins", user_message := "Juan Perez" }).admins =
      some [pyStrip ({ blankState with current_step := some "admins", user_message := "Juan Perez" } : ConvState).user_message] :=
  ⟨⟨by decide, by decide, rfl, by decide, by decide⟩,
   router_admins_non_phone_fallback (RouterLLM.mk none none none none none)
     { blankState with current_step := some "admins", user_message := "Juan Perez" }
     (by decide) (by decide) rfl (by decide) (by decide)⟩

/-- Source analysis for the tail of the router pipeline, over an
arbitrary base record: a `creating_campaign` status after field
application, confirmation and the event-id shortcut is either carried in
from the base record or produced by the confirmation branch with
`user_confirms` true and the six required fields truthy. -/
theorem router_pipeline_ps_source (p : RouterParsed) (cs um : String) (base : ConvState)
    (h : (router_apply_event_id p.event_id (router_apply_confirm p.user_confirms
            (router_apply_parsed p cs um base))).processing_status = some "creating_campaign") :
    base.processing_status = some "creating_campaign" ∨
    (p.user_confirms = some true ∧
     requiredDataComplete (router_apply_event_id p.event_id (router_apply_confirm p.user_confirms
       (router_apply_parsed p cs um base))) = true) := by
  rw [router_apply_event_id_processing_status] at h
  rcases huc : p.user_confirms with _ | b
  · rw [huc] at h
    rw [show ∀ s : ConvState, router_apply_confirm none s = s from fun _ => rfl] at h
    rw [router_apply_parsed_processing_status] at h
    exact Or.inl h
  · rw [huc] at h
    cases b with
    | false =>
        have h2 : some "idle" = some "creating_campaign" := h
        exact absurd (Option.some.inj h2) (by decide)
    | true =>
        rw [router_apply_confirm_ps_some_true] at h
        split at h
        · next hreq =>
            refine Or.inr ⟨rfl, ?_⟩
            rw [router_apply_event_id_required, router_apply_confirm_required]
            exact hreq
        · have h2 : some "idle" = some "creating_campaign" := h
          exact absurd (Option.some.inj h2) (by decide)

/-- A run of the router can only end with
`processing_status = "creating_campaign"` by carrying it in from the
input record or by taking the confirmation branch: oracle reply parsed
and campaign-related, `user_confirms` true, and all six required fields
truthy in the resulting record. -/
theorem router_creating_campaign_source (oracle : Except String (Option RouterLLM))
    (state : ConvState)
    (h : (router_node oracle state).processing_status = some "creating_campaign") :
    state.processing_status = some "creating_campaign" ∨
    (∃ llm, oracle = .ok (some llm) ∧
      (llm.parsed.getD emptyRouterParsed).user_confirms = some true ∧
      requiredDataComplete (router_node oracle state) = true) := by
  match oracle with
  | .error e => exact Or.inl h
  | .ok none =>
      have hps : (router_node (.ok none) state).processing_status = some "out_of_context" := rfl
      rw [hps] at h
      exact absurd h (by decide)
  | .ok (some llm) =>
      by_cases hdom : llm.is_campaign_related.getD true = true
      · rw [router_node_ok_related llm state hdom] at h
        rcases router_pipeline_ps_source _ _ _ _ h with hbase | ⟨huc, hreq⟩
        · split at hbase
          · next hcond =>
              have h2 : some (llm.processing_status.getD "idle") = some "creating_campaign" := hbase
              rw [Option.some.inj h2] at hcond
              exact absurd hcond (by decide)
          · exact Or.inl hbase
        · refine Or.inr ⟨llm, rfl, huc, ?_⟩
          rw [router_node_ok_related llm state hdom]
          exact hreq
      · have hfalse : llm.is_campaign_related.getD true = false := by
          revert hdom
          cases llm.is_campaign_related.getD true <;> simp
        have hps : (router_node (.ok (some llm)) state).processing_status = some "out_of_context" := by
          simp only [router_node, Option.getD_some, hfalse, Bool.not_false, if_true]
        rw [hps] at h
        exact absurd h (by decide)

/-- C1: with a campaign-related parsed oracle reply whose extraction has
`user_confirms = true`, the router sets
`processing_status = "creating_campaign"` exactly when all six required
fields (campaign_name, event_name, event_date, timezone, admins,
context) are truthy in the resulting record, and otherwise falls back to
`"idle"` with the missing-fields message; moreover (third conjunct), for
every oracle outcome and every input record, the router can only produce
`"creating_campaign"` by carrying it in from the input record or through
exactly this confirmation branch — no other site of the node sets it. -/
theorem router_confirmation_gate (oracle : Except String (Option RouterLLM))
    (state : ConvState) (llm : RouterLLM)
    (ho : oracle = .ok (some llm))
    (hdom : llm.is_campaign_related.getD true = true)
    (huc : (llm.parsed.getD emptyRouterParsed).user_confirms = some true) :
    (requiredDataComplete (router_node oracle state) = true →
       (router_node oracle state).processing_status = some "creating_campaign") ∧
    (requiredDataComplete (router_node oracle state) = false →
       (router_node oracle state).processing_status = some "idle" ∧
       (router_node oracle state).bot_response = some "Faltan algunos datos. Te ayudo a completarlos.") ∧
    (∀ (oracle2 : Except String (Option RouterLLM)) (state2 : ConvState),
       (router_node oracle2 state2).processing_status = some "creating_campaign" →
       state2.processing_status = some "creating_campaign" ∨
       (∃ llm2, oracle2 = .ok (some llm2) ∧
         (llm2.parsed.getD emptyRouterParsed).user_confirms = some true ∧
         requiredDataComplete (router_node oracle2 state2) = true)) := by
  subst ho
  refine ⟨?_, ?_, fun o2 s2 h2 => router_creating_campaign_source o2 s2 h2⟩
  · intro hall
    rw [router_node_ok_related llm state hdom] at hall ⊢
    rw [router_apply_event_id_required, router_apply_confirm_required] at hall
    rw [router_apply_event_id_processing_status, huc, router_apply_confirm_ps_some_true,
        if_pos hall]
  · intro hall
    rw [router_node_ok_related llm state hdom] at hall ⊢
    rw [router_apply_event_id_required, router_apply_confirm_required] at hall
    constructor
    · rw [router_apply_event_id_processing_status, huc, router_apply_confirm_ps_some_true,
          if_neg (by rw [hall]; exact Bool.false_ne_true)]
    · rw [router_apply_event_id_bot_response, huc,
          router_apply_confirm_bot_some_true_incomplete _ hall]

/-- Witness for C1 at a concrete input: every field filled, oracle
confirms, and the router moves to `creating_campaign`. -/
theorem router_confirmation_gate_witness :
    ((.ok (some (RouterLLM.mk none none none none (some (RouterParsed.mk none none none none none none none (some true))))) : Except String (Option RouterLLM)) = .ok (some (RouterLLM.mk none none none none (some (RouterParsed.mk none none none none none none none (some true))))) ∧
     (RouterLLM.mk none none none none (some (RouterParsed.mk none none none none none none none (some true)))).is_campaign_related.getD true = true ∧
     ((RouterLLM.mk none none none none (some (RouterParsed.mk none none none none none none none (some true)))).parsed.getD emptyRouterParsed).user_confirms = some true) ∧
    ((requiredDataComplete (router_node (.ok (some (RouterLLM.mk none none none none (some (RouterParsed.mk none none none none none none none (some true)))))) { blankState with campaign_name := some "Verano", event_name := some "Lanzamiento", event_date := some "2030-01-01 10:00", timezone := some "America/Bogota", admins := some ["573103435489"], context := some "Campana de verano", current_step := some "confirmation", user_message := "dale, adelante" }) = true →
       (router_node (.ok (some (RouterLLM.mk none none none none (some (RouterParsed.mk none none none none none none none (some true)))))) { blankState with campaign_name := some "Verano", event_name := some "Lanzamiento", event_date := some "2030-01-01 10:00", timezone := some "America/Bogota", admins := some ["573103435489"], context := some "Campana de verano", current_step := some "confirmation", user_message := "dale, adelante" }).processing_status = some "creating_campaign") ∧
     (requiredDataComplete (router_node (.ok (some (RouterLLM.mk none none none none (some (RouterParsed.mk none none none none none none none (some true)))))) { blankState with campaign_name := some "Verano", event_name := some "Lanzamiento", event_date := some "2030-01-01 10:00", timezone := some "America/Bogota", admins := some ["573103435489"], context := some "Campana de verano", current_step := some "confirmation", user_message := "dale, adelante" }) = false →
       (router_node (.ok (some (RouterLLM.mk none none none none (some (RouterParsed.mk none none none none none none none (some true)))))) { blankState with campaign_name := some "Verano", event_name := some "Lanzamiento", event_date := some "2030-01-01 10:00", timezone := some "America/Bogota", admins := some ["573103435489"], context := some "Campana de verano", current_step := some "confirmation", user_message := "dale, adelante" }).processing_status = some "idle" ∧
       (router_node (.ok (some (RouterLLM.mk none none none none (some (RouterParsed.mk none none none none none none none (some true)))))) { blankState with campaign_name := some "Verano", event_name := some "Lanzamiento", event_date := some "2030-01-01 10:00", timezone := some "America/Bogota", admins := some ["573103435489"], context := some "Campana de verano", current_step := some "confirmation", user_message := "dale, adelante" }).bot_response = some "Faltan algunos datos. Te ayudo a completarlos.") ∧
     (∀ (oracle2 : Except String (Option RouterLLM)) (state2 : ConvState),
       (router_node oracle2 state2).processing_status = some "creating_campaign" →
       state2.processing_status = some "creating_campaign" ∨
       (∃ llm2, oracle2 = .ok (some llm2) ∧
         (llm2.parsed.getD emptyRouterParsed).user_confirms = some true ∧
         requiredDataComplete (router_node oracle2 state2) = true))) :=
  ⟨⟨rfl, by decide, by decide⟩,
   router_confirmation_gate (.ok (some (RouterLLM.mk none none none none (some (RouterParsed.mk none none none none none none none (some true))))))
     { blankState with campaign_name := some "Verano", event_name := some "Lanzamiento", event_date := some "2030-01-01 10:00", timezone := some "America/Bogota", admins := some ["573103435489"], context := some "Campana de verano", current_step := some "confirmation", user_message := "dale, adelante" }
     (RouterLLM.mk none none none none (some (RouterParsed.mk none none none none none none none (some true)))) rfl (by decide) (by decide)⟩
